import Mathlib

/-!
Verification of the speech-library access layer `cst::tts::base::CSpeechLib`
(`src/engine/ttsbase/datavoice/splib_speechlib.h`).

The C++ source declares an abstract interface: the constructor, `isReady`,
`getDescriptor` and the nested `CDescriptor` record are concrete; every other
member (`initialize`, `terminate` and all data queries) is a pure virtual
function whose behaviour is fixed by the documented contract.  Concrete
members are translated directly from the source; pure-virtual members are
modelled from the spec, and each such definition says so in its doc comment.

Modelling choices:
`wchar_t` is `Char` and `std::wstring` is `String`; `icode_t` is `Int`
(it carries the sentinel `INVALID_ICODE = -1`); `uint32` counts are `Nat`;
waveform bytes are `List Nat`.  The polymorphic base classes `CContextLabel`
and `CProsodyTag` carry no data of their own (backends attach payloads by
inheritance), so they appear as type parameters `L` and `T`.  Member
functions are embedded with explicit state passing: each call returns its
result together with the instance after the call, so that `const` member
functions returning the instance unchanged is a provable statement.
-/

/-- Sentinel internal code: the input phoneme is not valid or supported
(`INVALID_ICODE(-1)`, source line 144). -/
def INVALID_ICODE : Int := -1

/-- Source record `CSpeechLib::CDescriptor` (lines 81-90): the detailed description
of the speech library.  Languages and accents must appear in pairs (lines
76-77); an empty accent stands for no distinguished accent. -/
structure CDescriptor where
  chGender : Char
  nAge : Int
  nVariant : Int
  wstrName : String
  vecLanguage : List String
  vecAccent : List String

/-- A default-constructed `CDescriptor`: in C++ the scalar members
`chGender`, `nAge`, `nVariant` are default-initialized to indeterminate
values (hence the parameters `g`, `a`, `v`), while the string and the two
vectors are value-initialized empty. -/
def CDescriptor.defaultCtor (g : Char) (a v : Int) : CDescriptor :=
  { chGender := g, nAge := a, nVariant := v, wstrName := "",
    vecLanguage := [], vecAccent := [] }

/-- One candidate speech unit of a phoneme.  Modelled from the spec: the
UnitInventory entry bundles the unit's context label (payload type `L`),
its prosody tag (payload type `T`) and its raw waveform bytes. -/
structure SpeechUnit (L T : Type) where
  label : L
  tag : T
  wave : List Nat

/-- Modelled from the spec: the loaded voice store a concrete backend exposes
behind the pure-virtual interface (the physical backends are not part of
`src/`).  Phoneme codes are the indices into `phonemes`; `units` is parallel
to `phonemes`; the audio-format triple is fixed per library. -/
structure LibraryData (L T : Type) where
  phonemes : List String
  units : List (List (SpeechUnit L T))
  descriptor : CDescriptor
  samplesPerSec : Int
  bitsPerSample : Int
  channels : Int

/-- The contract a conforming backend store satisfies (spec data model): the
symbol-to-code mapping is bijective (no duplicate symbols), the unit
inventories are parallel to the phoneme inventory, and the descriptor's
language and accent sequences are parallel (source lines 76-77). -/
def LibraryData.WF {L T : Type} (d : LibraryData L T) : Prop :=
  d.phonemes.Nodup ∧ d.units.length = d.phonemes.length ∧
    d.descriptor.vecLanguage.length = d.descriptor.vecAccent.length

instance {L T : Type} (d : LibraryData L T) : Decidable d.WF := by
  unfold LibraryData.WF; infer_instance

/-- The empty store: what the instance holds before a successful
initialization and after `terminate` has released the loaded resources. -/
def LibraryData.empty (L T : Type) : LibraryData L T :=
  { phonemes := [], units := [], descriptor := CDescriptor.defaultCtor (Char.ofNat 0) 0 0,
    samplesPerSec := 0, bitsPerSample := 0, channels := 0 }

/-- The unit inventory of code `iCode`: defined for
`0 ≤ iCode < phonemes.length` (the valid code range), empty otherwise. -/
def LibraryData.unitList {L T : Type} (d : LibraryData L T) (iCode : Int) :
    List (SpeechUnit L T) :=
  if 0 ≤ iCode ∧ iCode < (d.phonemes.length : Int) then d.units.getD iCode.toNat []
  else []

/-- Position of the first occurrence of symbol `s` in the phoneme inventory,
if present: the backend's symbol-to-code table. -/
def phonemeIndex (s : String) : List String → Option Nat
  | [] => none
  | t :: ts => if t = s then some 0 else (phonemeIndex s ts).map (· + 1)

/-- Source class `CSpeechLib` (lines 70-272).  `m_bInitialized` and `m_descriptor`
are the protected members (lines 259-261); `store` models the backend-owned
resources loaded behind the pure-virtual interface. -/
structure CSpeechLib (L T : Type) where
  m_bInitialized : Bool
  m_descriptor : CDescriptor
  store : LibraryData L T

/-- Source constructor `CSpeechLib::CSpeechLib()` (line 102): sets `m_bInitialized` to
`false` and default-constructs `m_descriptor` (indeterminate scalars `g`,
`a`, `v`); no store is loaded. -/
def CSpeechLib.construct (L T : Type) (g : Char) (a v : Int) : CSpeechLib L T :=
  { m_bInitialized := false, m_descriptor := CDescriptor.defaultCtor g a v,
    store := LibraryData.empty L T }

/-- Source member `CSpeechLib::isReady()` (line 128): whether the speech library is
initialized. -/
def CSpeechLib.isReady {L T : Type} (lib : CSpeechLib L T) : Bool :=
  lib.m_bInitialized

/-- Modelled from the spec: `CSpeechLib::initialize` (source line 116) is
pure virtual.  It loads the backing store at `wstrPath` (the backend's
loader is passed as `backend`), and on success transitions the instance to
Ready, populating `m_descriptor` from the store.  A conforming backend
reports success only for a store satisfying the contract (`LibraryData.WF`);
on failure the instance is left unchanged (no partial state may leak). -/
def CSpeechLib.initLib {L T : Type} (backend : String → Option (LibraryData L T))
    (lib : CSpeechLib L T) (wstrPath : String) : Bool × CSpeechLib L T :=
  match backend wstrPath with
  | none => (false, lib)
  | some d =>
    if d.WF then
      (true, { m_bInitialized := true, m_descriptor := d.descriptor, store := d })
    else (false, lib)

/-- Modelled from the spec: `CSpeechLib::terminate` (source line 123) is pure
virtual.  It releases all loaded data, clears the Ready flag, and is safe to
call even if initialization never succeeded, returning success. -/
def CSpeechLib.terminate {L T : Type} (lib : CSpeechLib L T) : Bool × CSpeechLib L T :=
  (true, { lib with m_bInitialized := false, store := LibraryData.empty L T })

/-- Modelled from the spec: `CSpeechLib::getICodeFromPhoneme` (source line
146) is pure virtual.  Returns the internal code of the input phoneme, and
`INVALID_ICODE` when the phoneme is not supported or the instance is not
Ready.  A `const` member: the instance is returned unchanged. -/
def CSpeechLib.getICodeFromPhoneme {L T : Type} (lib : CSpeechLib L T)
    (wstrPhoneme : String) : Int × CSpeechLib L T :=
  if lib.m_bInitialized then
    match phonemeIndex wstrPhoneme lib.store.phonemes with
    | some n => ((n : Int), lib)
    | none => (INVALID_ICODE, lib)
  else (INVALID_ICODE, lib)

/-- Modelled from the spec: `CSpeechLib::getPhonemeFromICode` (source line
156) is pure virtual.  Returns the phoneme of the input internal code, and
the empty string when the code is not valid or supported or the instance is
not Ready.  A `const` member. -/
def CSpeechLib.getPhonemeFromICode {L T : Type} (lib : CSpeechLib L T)
    (iCode : Int) : String × CSpeechLib L T :=
  if lib.m_bInitialized then
    if 0 ≤ iCode ∧ iCode < (lib.store.phonemes.length : Int) then
      (lib.store.phonemes.getD iCode.toNat "", lib)
    else ("", lib)
  else ("", lib)

/-- Modelled from the spec: `CSpeechLib::getPhonemeNumber` (source line 164)
is pure virtual.  Returns the number of phonemes of the library (zero when
not Ready).  A `const` member. -/
def CSpeechLib.getPhonemeNumber {L T : Type} (lib : CSpeechLib L T) :
    Nat × CSpeechLib L T :=
  if lib.m_bInitialized then (lib.store.phonemes.length, lib) else (0, lib)

/-- Modelled from the spec: `CSpeechLib::getUnitNumber` (source line 173) is
pure virtual.  Returns the total number of candidate speech units of the
phoneme `iCode` (zero when not Ready).  A `const` member. -/
def CSpeechLib.getUnitNumber {L T : Type} (lib : CSpeechLib L T) (iCode : Int) :
    Nat × CSpeechLib L T :=
  if lib.m_bInitialized then ((lib.store.unitList iCode).length, lib) else (0, lib)

/-- Modelled from the spec: `CSpeechLib::getContextLabels` (source line 185)
is pure virtual.  Capacity-negotiated bulk retrieval: `retLabels` is the
caller's array and `labelNum` its capacity; on success the first
`min labelNum unitCount` labels are written and that count is returned.
Fails, touching nothing, when not Ready or the code is invalid. -/
def CSpeechLib.getContextLabels {L T : Type} (lib : CSpeechLib L T) (iCode : Int)
    (retLabels : List L) (labelNum : Nat) : (Bool × List L × Nat) × CSpeechLib L T :=
  if lib.m_bInitialized then
    if 0 ≤ iCode ∧ iCode < (lib.store.phonemes.length : Int) then
      ((true,
        ((lib.store.unitList iCode).map SpeechUnit.label).take
            (min labelNum (lib.store.unitList iCode).length) ++
          retLabels.drop (min labelNum (lib.store.unitList iCode).length),
        min labelNum (lib.store.unitList iCode).length), lib)
    else ((false, retLabels, labelNum), lib)
  else ((false, retLabels, labelNum), lib)

/-- Modelled from the spec: `CSpeechLib::getContextLabel` (source line 196)
is pure virtual.  Retrieves the context label of unit `nIndex` of phoneme
`iCode` into the out-parameter `retLabel`; fails, leaving the out-parameter
untouched, when not Ready or the code or index is out of range. -/
def CSpeechLib.getContextLabel {L T : Type} (lib : CSpeechLib L T) (iCode : Int)
    (nIndex : Nat) (retLabel : L) : (Bool × L) × CSpeechLib L T :=
  if lib.m_bInitialized then
    match (lib.store.unitList iCode)[nIndex]? with
    | some u => ((true, u.label), lib)
    | none => ((false, retLabel), lib)
  else ((false, retLabel), lib)

/-- Modelled from the spec: `CSpeechLib::getProsodyTag` (source line 207) is
pure virtual.  Retrieves the prosody tag of unit `nIndex` of phoneme
`iCode` into the out-parameter `retTag`; fails, leaving the out-parameter
untouched, when not Ready or the code or index is out of range. -/
def CSpeechLib.getProsodyTag {L T : Type} (lib : CSpeechLib L T) (iCode : Int)
    (nIndex : Nat) (retTag : T) : (Bool × T) × CSpeechLib L T :=
  if lib.m_bInitialized then
    match (lib.store.unitList iCode)[nIndex]? with
    | some u => ((true, u.tag), lib)
    | none => ((false, retTag), lib)
  else ((false, retTag), lib)

/-- Modelled from the spec: `CSpeechLib::getWave` (source line 220) is pure
virtual.  Capacity-negotiated waveform retrieval: `waveData` is the caller's
buffer and `waveLen` its capacity in bytes; on success the first
`min waveLen waveLength` bytes are written and that actual length is
returned; the write never goes past the supplied capacity.  Fails, touching
nothing, when not Ready or the code or index is out of range. -/
def CSpeechLib.getWave {L T : Type} (lib : CSpeechLib L T) (iCode : Int)
    (nIndex : Nat) (waveData : List Nat) (waveLen : Nat) :
    (Bool × List Nat × Nat) × CSpeechLib L T :=
  if lib.m_bInitialized then
    match (lib.store.unitList iCode)[nIndex]? with
    | some u =>
      ((true, u.wave.take (min waveLen u.wave.length) ++
          waveData.drop (min waveLen u.wave.length),
        min waveLen u.wave.length), lib)
    | none => ((false, waveData, waveLen), lib)
  else ((false, waveData, waveLen), lib)

/-- Modelled from the spec: `CSpeechLib::getWaveLength` (source line 230) is
pure virtual.  Returns the exact byte length of the waveform of unit
`nIndex` of phoneme `iCode`; its `uint32` return carries no separate status,
so out-of-range or not-Ready queries answer zero. -/
def CSpeechLib.getWaveLength {L T : Type} (lib : CSpeechLib L T) (iCode : Int)
    (nIndex : Nat) : Nat × CSpeechLib L T :=
  if lib.m_bInitialized then
    match (lib.store.unitList iCode)[nIndex]? with
    | some u => (u.wave.length, lib)
    | none => (0, lib)
  else (0, lib)

/-- Source member `CSpeechLib::getDescriptor()` (line 242), concrete in the source:
returns `m_descriptor` directly, with no readiness guard. -/
def CSpeechLib.getDescriptor {L T : Type} (lib : CSpeechLib L T) :
    CDescriptor × CSpeechLib L T :=
  (lib.m_descriptor, lib)

/-- Modelled from the spec: `CSpeechLib::getSamplesPerSec` (source line 247)
is pure virtual.  The fixed sampling rate of the library.  A `const`
member. -/
def CSpeechLib.getSamplesPerSec {L T : Type} (lib : CSpeechLib L T) :
    Int × CSpeechLib L T :=
  if lib.m_bInitialized then (lib.store.samplesPerSec, lib) else (0, lib)

/-- Modelled from the spec: `CSpeechLib::getBitsPerSample` (source line 252)
is pure virtual.  The fixed sampling precision of the library.  A `const`
member. -/
def CSpeechLib.getBitsPerSample {L T : Type} (lib : CSpeechLib L T) :
    Int × CSpeechLib L T :=
  if lib.m_bInitialized then (lib.store.bitsPerSample, lib) else (0, lib)

/-- Modelled from the spec: `CSpeechLib::getChannels` (source line 257) is
pure virtual.  The fixed channel count of the library.  A `const` member. -/
def CSpeechLib.getChannels {L T : Type} (lib : CSpeechLib L T) :
    Int × CSpeechLib L T :=
  if lib.m_bInitialized then (lib.store.channels, lib) else (0, lib)

/-- Every data-query operation fails cleanly on `lib`: boolean operations
return `false` with their out-parameters untouched, and sentinel-valued
operations answer their sentinel (`INVALID_ICODE`, the empty string, zero). -/
def failsAllQueries {L T : Type} (lib : CSpeechLib L T) : Prop :=
  (∀ s, (lib.getICodeFromPhoneme s).1 = INVALID_ICODE) ∧
  (∀ c, (lib.getPhonemeFromICode c).1 = "") ∧
  lib.getPhonemeNumber.1 = 0 ∧
  (∀ c, (lib.getUnitNumber c).1 = 0) ∧
  (∀ c ls n, (lib.getContextLabels c ls n).1 = (false, ls, n)) ∧
  (∀ c i l, (lib.getContextLabel c i l).1 = (false, l)) ∧
  (∀ c i t, (lib.getProsodyTag c i t).1 = (false, t)) ∧
  (∀ c i b n, (lib.getWave c i b n).1 = (false, b, n)) ∧
  (∀ c i, (lib.getWaveLength c i).1 = 0)

/-- States of one accessor instance reachable through its public interface:
construction, initialization, termination, and every data query. -/
inductive Reachable {L T : Type} (backend : String → Option (LibraryData L T)) :
    CSpeechLib L T → Prop
  | construct (g : Char) (a v : Int) : Reachable backend (CSpeechLib.construct L T g a v)
  | init (lib : CSpeechLib L T) (path : String) :
      Reachable backend lib → Reachable backend (CSpeechLib.initLib backend lib path).2
  | term (lib : CSpeechLib L T) :
      Reachable backend lib → Reachable backend lib.terminate.2
  | qICode (lib : CSpeechLib L T) (s : String) :
      Reachable backend lib → Reachable backend (lib.getICodeFromPhoneme s).2
  | qPhon (lib : CSpeechLib L T) (c : Int) :
      Reachable backend lib → Reachable backend (lib.getPhonemeFromICode c).2
  | qPhonNum (lib : CSpeechLib L T) :
      Reachable backend lib → Reachable backend lib.getPhonemeNumber.2
  | qUnitNum (lib : CSpeechLib L T) (c : Int) :
      Reachable backend lib → Reachable backend (lib.getUnitNumber c).2
  | qLabels (lib : CSpeechLib L T) (c : Int) (ls : List L) (n : Nat) :
      Reachable backend lib → Reachable backend (lib.getContextLabels c ls n).2
  | qLabel (lib : CSpeechLib L T) (c : Int) (i : Nat) (l : L) :
      Reachable backend lib → Reachable backend (lib.getContextLabel c i l).2
  | qTag (lib : CSpeechLib L T) (c : Int) (i : Nat) (t : T) :
      Reachable backend lib → Reachable backend (lib.getProsodyTag c i t).2
  | qWave (lib : CSpeechLib L T) (c : Int) (i : Nat) (b : List Nat) (n : Nat) :
      Reachable backend lib → Reachable backend (lib.getWave c i b n).2
  | qWaveLen (lib : CSpeechLib L T) (c : Int) (i : Nat) :
      Reachable backend lib → Reachable backend (lib.getWaveLength c i).2
  | qDescr (lib : CSpeechLib L T) :
      Reachable backend lib → Reachable backend lib.getDescriptor.2
  | qRate (lib : CSpeechLib L T) :
      Reachable backend lib → Reachable backend lib.getSamplesPerSec.2
  | qBits (lib : CSpeechLib L T) :
      Reachable backend lib → Reachable backend lib.getBitsPerSample.2
  | qChan (lib : CSpeechLib L T) :
      Reachable backend lib → Reachable backend lib.getChannels.2

theorem snd_getICodeFromPhoneme {L T : Type} (lib : CSpeechLib L T) (s : String) :
    (lib.getICodeFromPhoneme s).2 = lib := by
  unfold CSpeechLib.getICodeFromPhoneme
  split
  · split <;> rfl
  · rfl

theorem snd_getPhonemeFromICode {L T : Type} (lib : CSpeechLib L T) (c : Int) :
    (lib.getPhonemeFromICode c).2 = lib := by
  unfold CSpeechLib.getPhonemeFromICode
  split
  · split <;> rfl
  · rfl

theorem snd_getPhonemeNumber {L T : Type} (lib : CSpeechLib L T) :
    lib.getPhonemeNumber.2 = lib := by
  unfold CSpeechLib.getPhonemeNumber
  split <;> rfl

theorem snd_getUnitNumber {L T : Type} (lib : CSpeechLib L T) (c : Int) :
    (lib.getUnitNumber c).2 = lib := by
  unfold CSpeechLib.getUnitNumber
  split <;> rfl

theorem snd_getContextLabels {L T : Type} (lib : CSpeechLib L T) (c : Int)
    (ls : List L) (n : Nat) : (lib.getContextLabels c ls n).2 = lib := by
  unfold CSpeechLib.getContextLabels
  split
  · split <;> rfl
  · rfl

theorem snd_getContextLabel {L T : Type} (lib : CSpeechLib L T) (c : Int) (i : Nat)
    (l : L) : (lib.getContextLabel c i l).2 = lib := by
  unfold CSpeechLib.getContextLabel
  split
  · split <;> rfl
  · rfl

theorem snd_getProsodyTag {L T : Type} (lib : CSpeechLib L T) (c : Int) (i : Nat)
    (t : T) : (lib.getProsodyTag c i t).2 = lib := by
  unfold CSpeechLib.getProsodyTag
  split
  · split <;> rfl
  · rfl

theorem snd_getWave {L T : Type} (lib : CSpeechLib L T) (c : Int) (i : Nat)
    (b : List Nat) (n : Nat) : (lib.getWave c i b n).2 = lib := by
  unfold CSpeechLib.getWave
  split
  · split <;> rfl
  · rfl

theorem snd_getWaveLength {L T : Type} (lib : CSpeechLib L T) (c : Int) (i : Nat) :
    (lib.getWaveLength c i).2 = lib := by
  unfold CSpeechLib.getWaveLength
  split
  · split <;> rfl
  · rfl

theorem snd_getDescriptor {L T : Type} (lib : CSpeechLib L T) :
    lib.getDescriptor.2 = lib := rfl

theorem snd_getSamplesPerSec {L T : Type} (lib : CSpeechLib L T) :
    lib.getSamplesPerSec.2 = lib := by
  unfold CSpeechLib.getSamplesPerSec
  split <;> rfl

theorem snd_getBitsPerSample {L T : Type} (lib : CSpeechLib L T) :
    lib.getBitsPerSample.2 = lib := by
  unfold CSpeechLib.getBitsPerSample
  split <;> rfl

theorem snd_getChannels {L T : Type} (lib : CSpeechLib L T) :
    lib.getChannels.2 = lib := by
  unfold CSpeechLib.getChannels
  split <;> rfl

theorem phonemeIndex_lt_length {s : String} :
    ∀ {l : List String} {n : Nat}, phonemeIndex s l = some n → n < l.length
  | [], n, h => by simp [phonemeIndex] at h
  | t :: ts, n, h => by
    by_cases ht : t = s
    · simp only [phonemeIndex, if_pos ht, Option.some.injEq] at h
      simp [← h]
    · simp only [phonemeIndex, if_neg ht, Option.map_eq_some'] at h
      obtain ⟨m, hm, rfl⟩ := h
      have := phonemeIndex_lt_length hm
      simp only [List.length_cons]
      omega

theorem phonemeIndex_getD {s : String} :
    ∀ {l : List String} {n : Nat}, phonemeIndex s l = some n → l.getD n "" = s
  | [], n, h => by simp [phonemeIndex] at h
  | t :: ts, n, h => by
    by_cases ht : t = s
    · simp only [phonemeIndex, if_pos ht, Option.some.injEq] at h
      simp [← h, ht]
    · simp only [phonemeIndex, if_neg ht, Option.map_eq_some'] at h
      obtain ⟨m, hm, rfl⟩ := h
      simpa using phonemeIndex_getD hm

theorem phonemeIndex_isSome_of_mem {s : String} :
    ∀ {l : List String}, s ∈ l → (phonemeIndex s l).isSome
  | [], h => by simp at h
  | t :: ts, h => by
    by_cases ht : t = s
    · simp [phonemeIndex, if_pos ht]
    · have hs : s ∈ ts := by
        rcases List.mem_cons.mp h with h1 | h1
        · exact absurd h1.symm ht
        · exact h1
      have := phonemeIndex_isSome_of_mem hs
      simp only [phonemeIndex, if_neg ht, Option.isSome_map']
      exact this

theorem phonemeIndex_eq_none_of_not_mem {s : String} :
    ∀ {l : List String}, s ∉ l → phonemeIndex s l = none
  | [], _ => rfl
  | t :: ts, h => by
    have ht : ¬ t = s := fun e => h (e ▸ List.mem_cons_self t ts)
    have hs : s ∉ ts := fun e => h (List.mem_cons_of_mem t e)
    simp [phonemeIndex, if_neg ht, phonemeIndex_eq_none_of_not_mem hs]

theorem unitList_getElem?_eq_none {L T : Type} (d : LibraryData L T) (iCode : Int)
    (nIndex : Nat)
    (h : ¬ (0 ≤ iCode ∧ iCode < (d.phonemes.length : Int) ∧
            nIndex < (d.unitList iCode).length)) :
    (d.unitList iCode)[nIndex]? = none := by
  by_cases hc : 0 ≤ iCode ∧ iCode < (d.phonemes.length : Int)
  · have hlen : (d.unitList iCode).length ≤ nIndex := by
      rcases Nat.lt_or_ge nIndex (d.unitList iCode).length with hlt | hge
      · exact absurd ⟨hc.1, hc.2, hlt⟩ h
      · exact hge
    exact List.getElem?_eq_none hlen
  · unfold LibraryData.unitList
    rw [if_neg hc]
    rfl

theorem failsAllQueries_of_flag_false {L T : Type} (lib : CSpeechLib L T)
    (h : lib.m_bInitialized = false) : failsAllQueries lib := by
  refine ⟨fun s => ?_, fun c => ?_, ?_, fun c => ?_, fun c ls n => ?_,
    fun c i l => ?_, fun c i t => ?_, fun c i b n => ?_, fun c i => ?_⟩ <;>
    simp [CSpeechLib.getICodeFromPhoneme, CSpeechLib.getPhonemeFromICode,
      CSpeechLib.getPhonemeNumber, CSpeechLib.getUnitNumber,
      CSpeechLib.getContextLabels, CSpeechLib.getContextLabel,
      CSpeechLib.getProsodyTag, CSpeechLib.getWave, CSpeechLib.getWaveLength, h]

/-- A concrete conforming store used as evidence: two phonemes, three units
for code 0 (waveforms of 4, 2 and 0 bytes) and one unit for code 1. -/
def exStore : LibraryData Nat Nat :=
  { phonemes := ["a", "b"],
    units := [[⟨0, 100, [1, 2, 3, 4]⟩, ⟨1, 101, [5, 6]⟩, ⟨2, 102, []⟩],
              [⟨3, 103, [7]⟩]],
    descriptor := { chGender := Char.ofNat 102, nAge := 30, nVariant := 1,
                    wstrName := "demo",
                    vecLanguage := ["zh-cmn", "zh-yue"],
                    vecAccent := ["zh-HK", ""] },
    samplesPerSec := 16000, bitsPerSample := 16, channels := 1 }

/-- A concrete backend loader that finds `exStore` at every path. -/
def exBackend : String → Option (LibraryData Nat Nat) := fun _ => some exStore

/-- A concrete Ready instance: constructed, then successfully initialized. -/
def exLib : CSpeechLib Nat Nat :=
  (CSpeechLib.initLib exBackend (CSpeechLib.construct Nat Nat (Char.ofNat 0) 0 0)
    "voice/path").2


theorem write_drop {α : Type} (src old : List α) (cap n : Nat) (h1 : n ≤ cap)
    (h2 : n ≤ src.length) :
    (src.take n ++ old.drop n).drop cap = old.drop cap := by
  have hlen : (src.take n).length = n := List.length_take_of_le h2
  calc (src.take n ++ old.drop n).drop cap
      = (src.take n ++ old.drop n).drop ((src.take n).length + (cap - n)) := by
        rw [hlen]
        congr 1
        omega
    _ = (old.drop n).drop (cap - n) := List.drop_append _
    _ = old.drop (n + (cap - n)) := List.drop_drop _ _ _
    _ = old.drop cap := by
        congr 1
        omega

theorem write_take {α : Type} (src old : List α) (n : Nat) (h : n ≤ src.length) :
    (src.take n ++ old.drop n).take n = src.take n := by
  have hlen : (src.take n).length = n := List.length_take_of_le h
  rw [List.take_append_of_le_length (le_of_eq hlen.symm)]
  simp [List.take_take]

/-- Claim C1: for every Ready library, every valid code, every index in
`[0, unitCount(code))` and every capacity, `getWave` writes at most
`capacity` bytes into the caller's buffer (bytes past the capacity are
untouched and the actual length is at most the capacity); and whenever the
capacity is at least `getWaveLength(code, index)`, the returned actual
length equals `getWaveLength(code, index)` exactly. -/
theorem C1_getWave_capacity {L T : Type} (lib : CSpeechLib L T) (iCode : Int)
    (nIndex : Nat) (waveData : List Nat) (waveLen : Nat)
    (hready : lib.isReady = true)
    (hcode : 0 ≤ iCode ∧ iCode < (lib.getPhonemeNumber.1 : Int))
    (hidx : nIndex < (lib.getUnitNumber iCode).1) :
    ((lib.getWave iCode nIndex waveData waveLen).1.2.1).drop waveLen =
        waveData.drop waveLen ∧
      (lib.getWave iCode nIndex waveData waveLen).1.2.2 ≤ waveLen ∧
      ((lib.getWaveLength iCode nIndex).1 ≤ waveLen →
        (lib.getWave iCode nIndex waveData waveLen).1.2.2 =
          (lib.getWaveLength iCode nIndex).1) := by
  have hb : lib.m_bInitialized = true := hready
  have hidx' : nIndex < (lib.store.unitList iCode).length := by
    simpa [CSpeechLib.getUnitNumber, hb] using hidx
  have hget : (lib.store.unitList iCode)[nIndex]? =
      some (lib.store.unitList iCode)[nIndex] := List.getElem?_eq_getElem hidx'
  simp only [CSpeechLib.getWave, CSpeechLib.getWaveLength, hb, if_true, hget]
  refine ⟨?_, ?_, ?_⟩
  · exact write_drop _ _ _ _ (Nat.min_le_left _ _) (Nat.min_le_right _ _)
  · exact Nat.min_le_left _ _
  · intro hle
    exact Nat.min_eq_right hle

theorem C1_witness :
    ((exLib.getWave 0 1 [9, 9, 9, 9, 9] 5).1.2.1).drop 5 =
        ([9, 9, 9, 9, 9] : List Nat).drop 5 ∧
      (exLib.getWave 0 1 [9, 9, 9, 9, 9] 5).1.2.2 ≤ 5 ∧
      ((exLib.getWaveLength 0 1).1 ≤ 5 →
        (exLib.getWave 0 1 [9, 9, 9, 9, 9] 5).1.2.2 = (exLib.getWaveLength 0 1).1) :=
  C1_getWave_capacity exLib 0 1 [9, 9, 9, 9, 9] 5 (by decide) (by decide) (by decide)

/-- Claim C2: for every Ready library, every valid code and every supplied
capacity, `getContextLabels` succeeds and returns an actual count equal to
`min(capacity, getUnitNumber(code))`, writing exactly that many labels into
the caller's array (the prefix of that length is the store's labels, the
rest of the array is untouched). -/
theorem C2_getContextLabels_negotiation {L T : Type} (lib : CSpeechLib L T)
    (iCode : Int) (retLabels : List L) (labelNum : Nat)
    (hready : lib.isReady = true)
    (hcode : 0 ≤ iCode ∧ iCode < (lib.getPhonemeNumber.1 : Int)) :
    (lib.getContextLabels iCode retLabels labelNum).1.1 = true ∧
      (lib.getContextLabels iCode retLabels labelNum).1.2.2 =
        min labelNum (lib.getUnitNumber iCode).1 ∧
      (lib.getContextLabels iCode retLabels labelNum).1.2.1.take
          (min labelNum (lib.getUnitNumber iCode).1) =
        ((lib.store.unitList iCode).map SpeechUnit.label).take
          (min labelNum (lib.getUnitNumber iCode).1) ∧
      (lib.getContextLabels iCode retLabels labelNum).1.2.1.drop
          (min labelNum (lib.getUnitNumber iCode).1) =
        retLabels.drop (min labelNum (lib.getUnitNumber iCode).1) := by
  have hb : lib.m_bInitialized = true := hready
  have hcode' : 0 ≤ iCode ∧ iCode < (lib.store.phonemes.length : Int) := by
    simpa [CSpeechLib.getPhonemeNumber, hb] using hcode
  have hlen : min labelNum (lib.store.unitList iCode).length ≤
      ((lib.store.unitList iCode).map SpeechUnit.label).length := by
    rw [List.length_map]
    exact Nat.min_le_right _ _
  simp only [CSpeechLib.getContextLabels, CSpeechLib.getUnitNumber, hb, if_true,
    if_pos hcode']
  exact ⟨trivial, trivial, write_take _ _ _ hlen, write_drop _ _ _ _ le_rfl hlen⟩

theorem C2_witness :
    (exLib.getContextLabels 0 [9, 9] 2).1.1 = true ∧
      (exLib.getContextLabels 0 [9, 9] 2).1.2.2 = min 2 (exLib.getUnitNumber 0).1 ∧
      (exLib.getContextLabels 0 [9, 9] 2).1.2.1.take (min 2 (exLib.getUnitNumber 0).1) =
        ((exLib.store.unitList 0).map SpeechUnit.label).take
          (min 2 (exLib.getUnitNumber 0).1) ∧
      (exLib.getContextLabels 0 [9, 9] 2).1.2.1.drop (min 2 (exLib.getUnitNumber 0).1) =
        ([9, 9] : List Nat).drop (min 2 (exLib.getUnitNumber 0).1) :=
  C2_getContextLabels_negotiation exLib 0 [9, 9] 2 (by decide) (by decide)

/-- Claim C3: the accessor is a state machine Uninitialized -> Ready ->
Terminated: a freshly constructed instance has `isReady() = false` and every
data query fails cleanly; a successful initialization makes the instance
Ready; after `terminate()` the instance reports `isReady() = false` and
every data query fails cleanly again. -/
theorem C3_lifecycle {L T : Type} (backend : String → Option (LibraryData L T))
    (lib : CSpeechLib L T) (path : String) (g : Char) (a v : Int)
    (hinit : (CSpeechLib.initLib backend lib path).1 = true) :
    (CSpeechLib.construct L T g a v).isReady = false ∧
      failsAllQueries (CSpeechLib.construct L T g a v) ∧
      (CSpeechLib.initLib backend lib path).2.isReady = true ∧
      lib.terminate.2.isReady = false ∧
      failsAllQueries lib.terminate.2 := by
  refine ⟨rfl, failsAllQueries_of_flag_false _ rfl, ?_, rfl,
    failsAllQueries_of_flag_false _ rfl⟩
  unfold CSpeechLib.initLib at hinit ⊢
  rcases hbp : backend path with _ | d
  · rw [hbp] at hinit
    simp at hinit
  · rw [hbp] at hinit
    by_cases hw : d.WF
    · simp [hw, CSpeechLib.isReady]
    · simp [hw] at hinit

theorem C3_witness :
    (CSpeechLib.construct Nat Nat (Char.ofNat 0) 0 0).isReady = false ∧
      failsAllQueries (CSpeechLib.construct Nat Nat (Char.ofNat 0) 0 0) ∧
      (CSpeechLib.initLib exBackend (CSpeechLib.construct Nat Nat (Char.ofNat 0) 0 0)
          "voice/path").2.isReady = true ∧
      (CSpeechLib.construct Nat Nat (Char.ofNat 0) 0 0).terminate.2.isReady = false ∧
      failsAllQueries (CSpeechLib.construct Nat Nat (Char.ofNat 0) 0 0).terminate.2 :=
  C3_lifecycle exBackend (CSpeechLib.construct Nat Nat (Char.ofNat 0) 0 0) "voice/path"
    (Char.ofNat 0) 0 0 (by decide)

theorem roundtrip_of_mem {L T : Type} (lib : CSpeechLib L T) (s : String)
    (hb : lib.m_bInitialized = true) (hs : s ∈ lib.store.phonemes) :
    (lib.getPhonemeFromICode (lib.getICodeFromPhoneme s).1).1 = s := by
  obtain ⟨n, hn⟩ := Option.isSome_iff_exists.mp (phonemeIndex_isSome_of_mem hs)
  have hlt := phonemeIndex_lt_length hn
  have hgd := phonemeIndex_getD hn
  simp only [CSpeechLib.getICodeFromPhoneme, hb, if_true, hn]
  simp only [CSpeechLib.getPhonemeFromICode, hb, if_true]
  rw [if_pos]
  · simpa using hgd
  · exact ⟨Int.ofNat_nonneg n, by exact_mod_cast hlt⟩

/-- Claim C4: for every Ready library and phoneme symbols in the supported
alphabet, `getPhonemeFromICode (getICodeFromPhoneme s) = s` (the
symbol-to-code mapping round-trips, hence is injective over supported
symbols). -/
theorem C4_phoneme_roundtrip {L T : Type} (lib : CSpeechLib L T) (s t : String)
    (hready : lib.isReady = true) (hs : s ∈ lib.store.phonemes)
    (ht : t ∈ lib.store.phonemes) :
    (lib.getPhonemeFromICode (lib.getICodeFromPhoneme s).1).1 = s ∧
      ((lib.getICodeFromPhoneme s).1 = (lib.getICodeFromPhoneme t).1 → s = t) := by
  have hb : lib.m_bInitialized = true := hready
  have rs := roundtrip_of_mem lib s hb hs
  have rt := roundtrip_of_mem lib t hb ht
  exact ⟨rs, fun he => by rw [← rs, ← rt, he]⟩

theorem C4_witness :
    (exLib.getPhonemeFromICode (exLib.getICodeFromPhoneme "b").1).1 = "b" ∧
      ((exLib.getICodeFromPhoneme "b").1 = (exLib.getICodeFromPhoneme "a").1 →
        "b" = "a") :=
  C4_phoneme_roundtrip exLib "b" "a" (by decide) (by decide) (by decide)

/-- Claim C5: for every Ready library, `getICodeFromPhoneme` on any
unsupported symbol returns the sentinel `INVALID_ICODE` (-1), and
`getPhonemeFromICode` on any invalid code returns the empty string; both are
returned as normal results (the operations have no failure channel). -/
theorem C5_sentinel_outcomes {L T : Type} (lib : CSpeechLib L T) (s : String)
    (c : Int) (hready : lib.isReady = true) (hs : s ∉ lib.store.phonemes)
    (hc : c < 0 ∨ (lib.getPhonemeNumber.1 : Int) ≤ c) :
    (lib.getICodeFromPhoneme s).1 = INVALID_ICODE ∧
      (lib.getPhonemeFromICode c).1 = "" := by
  have hb : lib.m_bInitialized = true := hready
  constructor
  · simp only [CSpeechLib.getICodeFromPhoneme, hb, if_true,
      phonemeIndex_eq_none_of_not_mem hs]
  · have hc' : ¬ (0 ≤ c ∧ c < (lib.store.phonemes.length : Int)) := by
      simp only [CSpeechLib.getPhonemeNumber, hb, if_true] at hc
      omega
    simp only [CSpeechLib.getPhonemeFromICode, hb, if_true, if_neg hc']

theorem C5_witness :
    (exLib.getICodeFromPhoneme "zz").1 = INVALID_ICODE ∧
      (exLib.getPhonemeFromICode (-1)).1 = "" :=
  C5_sentinel_outcomes exLib "zz" (-1) (by decide) (by decide) (Or.inl (by decide))

/-- Claim C6: for every Ready library, a query with an out-of-range code or
an out-of-range unit index fails: `getContextLabel`, `getProsodyTag` and
`getWave` return `false` leaving their out-parameters untouched, and
`getWaveLength` (whose `uint32` return has no status channel) answers
zero. -/
theorem C6_out_of_range_rejected {L T : Type} (lib : CSpeechLib L T) (iCode : Int)
    (nIndex : Nat) (lbl : L) (tg : T) (buf : List Nat) (cap : Nat)
    (hready : lib.isReady = true)
    (hbad : ¬ (0 ≤ iCode ∧ iCode < (lib.getPhonemeNumber.1 : Int) ∧
               nIndex < (lib.getUnitNumber iCode).1)) :
    (lib.getContextLabel iCode nIndex lbl).1 = (false, lbl) ∧
      (lib.getProsodyTag iCode nIndex tg).1 = (false, tg) ∧
      (lib.getWaveLength iCode nIndex).1 = 0 ∧
      (lib.getWave iCode nIndex buf cap).1 = (false, buf, cap) := by
  have hb : lib.m_bInitialized = true := hready
  have hbad' : ¬ (0 ≤ iCode ∧ iCode < (lib.store.phonemes.length : Int) ∧
      nIndex < (lib.store.unitList iCode).length) := by
    simpa [CSpeechLib.getPhonemeNumber, CSpeechLib.getUnitNumber, hb] using hbad
  have hnone := unitList_getElem?_eq_none lib.store iCode nIndex hbad'
  refine ⟨?_, ?_, ?_, ?_⟩ <;>
    simp [CSpeechLib.getContextLabel, CSpeechLib.getProsodyTag,
      CSpeechLib.getWaveLength, CSpeechLib.getWave, hb, hnone]

theorem C6_witness :
    (exLib.getContextLabel 0 5 99).1 = (false, 99) ∧
      (exLib.getProsodyTag 0 5 98).1 = (false, 98) ∧
      (exLib.getWaveLength 0 5).1 = 0 ∧
      (exLib.getWave 0 5 [9, 9] 8).1 = (false, [9, 9], 8) :=
  C6_out_of_range_rejected exLib 0 5 99 98 [9, 9] 8 (by decide) (by decide)

/-- Claim C7: for every Ready library, `getPhonemeNumber` is the size of the
phoneme inventory and defines the valid code range: the code of every
supported symbol lies in `[0, getPhonemeNumber())`, and every code in that
range resolves to a supported symbol. -/
theorem C7_phonemeNumber_range {L T : Type} (lib : CSpeechLib L T) (s : String)
    (c : Int) (hready : lib.isReady = true) (hs : s ∈ lib.store.phonemes)
    (hc : 0 ≤ c ∧ c < (lib.getPhonemeNumber.1 : Int)) :
    lib.getPhonemeNumber.1 = lib.store.phonemes.length ∧
      0 ≤ (lib.getICodeFromPhoneme s).1 ∧
      (lib.getICodeFromPhoneme s).1 < (lib.getPhonemeNumber.1 : Int) ∧
      (lib.getPhonemeFromICode c).1 ∈ lib.store.phonemes := by
  have hb : lib.m_bInitialized = true := hready
  obtain ⟨n, hn⟩ := Option.isSome_iff_exists.mp (phonemeIndex_isSome_of_mem hs)
  have hlt := phonemeIndex_lt_length hn
  refine ⟨by simp [CSpeechLib.getPhonemeNumber, hb], ?_, ?_, ?_⟩
  · simp only [CSpeechLib.getICodeFromPhoneme, hb, if_true, hn]
    exact Int.ofNat_nonneg n
  · simp only [CSpeechLib.getICodeFromPhoneme, CSpeechLib.getPhonemeNumber, hb,
      if_true, hn]
    exact_mod_cast hlt
  · have hc' : 0 ≤ c ∧ c < (lib.store.phonemes.length : Int) := by
      simpa [CSpeechLib.getPhonemeNumber, hb] using hc
    have hlt2 : c.toNat < lib.store.phonemes.length := by omega
    simp only [CSpeechLib.getPhonemeFromICode, hb, if_true, if_pos hc',
      List.getD_eq_getElem?_getD, List.getElem?_eq_getElem hlt2, Option.getD_some]
    exact List.getElem_mem hlt2

theorem C7_witness :
    exLib.getPhonemeNumber.1 = exLib.store.phonemes.length ∧
      0 ≤ (exLib.getICodeFromPhoneme "a").1 ∧
      (exLib.getICodeFromPhoneme "a").1 < (exLib.getPhonemeNumber.1 : Int) ∧
      (exLib.getPhonemeFromICode 1).1 ∈ exLib.store.phonemes :=
  C7_phonemeNumber_range exLib "a" 1 (by decide) (by decide) (by decide)

/-- Claim C8: every state of an accessor instance reachable through its
public interface — in particular every initialized one — has a descriptor
whose language and accent sequences are parallel
(`vecLanguage.size() == vecAccent.size()`); the invariant is established at
construction and by `initialize` and preserved by every subsequent
operation. -/
theorem C8_descriptor_parallel {L T : Type}
    (backend : String → Option (LibraryData L T)) (lib : CSpeechLib L T)
    (h : Reachable backend lib) :
    lib.getDescriptor.1.vecLanguage.length = lib.getDescriptor.1.vecAccent.length := by
  induction h with
  | construct g a v => rfl
  | init lib path hr ih =>
    unfold CSpeechLib.initLib
    rcases hbp : backend path with _ | d
    · exact ih
    · by_cases hw : d.WF
      · simpa [hw, CSpeechLib.getDescriptor] using hw.2.2
      · simpa [hw, CSpeechLib.getDescriptor] using ih
  | term lib hr ih => simpa [CSpeechLib.terminate, CSpeechLib.getDescriptor] using ih
  | qICode lib s hr ih => rwa [snd_getICodeFromPhoneme]
  | qPhon lib c hr ih => rwa [snd_getPhonemeFromICode]
  | qPhonNum lib hr ih => rwa [snd_getPhonemeNumber]
  | qUnitNum lib c hr ih => rwa [snd_getUnitNumber]
  | qLabels lib c ls n hr ih => rwa [snd_getContextLabels]
  | qLabel lib c i l hr ih => rwa [snd_getContextLabel]
  | qTag lib c i t hr ih => rwa [snd_getProsodyTag]
  | qWave lib c i b n hr ih => rwa [snd_getWave]
  | qWaveLen lib c i hr ih => rwa [snd_getWaveLength]
  | qDescr lib hr ih => rwa [snd_getDescriptor]
  | qRate lib hr ih => rwa [snd_getSamplesPerSec]
  | qBits lib hr ih => rwa [snd_getBitsPerSample]
  | qChan lib hr ih => rwa [snd_getChannels]

theorem C8_witness :
    exLib.getDescriptor.1.vecLanguage.length =
      exLib.getDescriptor.1.vecAccent.length :=
  C8_descriptor_parallel exBackend exLib
    (Reachable.init (CSpeechLib.construct Nat Nat (Char.ofNat 0) 0 0) "voice/path"
      (Reachable.construct (Char.ofNat 0) 0 0))

/-- Claim C9: every data-query operation — the code mapping, counting, label,
tag and wave retrievals, the descriptor accessor and the audio-format
getters — leaves the instance (lifecycle flag, descriptor and loaded store)
unchanged; they are `const` members. -/
theorem C9_queries_leave_state {L T : Type} (lib : CSpeechLib L T) (s : String)
    (c : Int) (i n : Nat) (ls : List L) (lbl : L) (tg : T) (buf : List Nat) :
    (lib.getICodeFromPhoneme s).2 = lib ∧ (lib.getPhonemeFromICode c).2 = lib ∧
      lib.getPhonemeNumber.2 = lib ∧ (lib.getUnitNumber c).2 = lib ∧
      (lib.getContextLabels c ls n).2 = lib ∧ (lib.getContextLabel c i lbl).2 = lib ∧
      (lib.getProsodyTag c i tg).2 = lib ∧ (lib.getWave c i buf n).2 = lib ∧
      (lib.getWaveLength c i).2 = lib ∧ lib.getDescriptor.2 = lib ∧
      lib.getSamplesPerSec.2 = lib ∧ lib.getBitsPerSample.2 = lib ∧
      lib.getChannels.2 = lib :=
  ⟨snd_getICodeFromPhoneme lib s, snd_getPhonemeFromICode lib c,
    snd_getPhonemeNumber lib, snd_getUnitNumber lib c,
    snd_getContextLabels lib c ls n, snd_getContextLabel lib c i lbl,
    snd_getProsodyTag lib c i tg, snd_getWave lib c i buf n,
    snd_getWaveLength lib c i, snd_getDescriptor lib, snd_getSamplesPerSec lib,
    snd_getBitsPerSample lib, snd_getChannels lib⟩

/-- Claim C10: `getDescriptor` is total over all lifecycle states: it is not
guarded by readiness and always returns the stored `m_descriptor`; on a
freshly constructed (never initialized) instance, and still after
terminating it, that is the default-constructed descriptor. -/
theorem C10_getDescriptor_total {L T : Type} (lib : CSpeechLib L T) (g : Char)
    (a v : Int) :
    lib.getDescriptor.1 = lib.m_descriptor ∧
      (CSpeechLib.construct L T g a v).getDescriptor.1 =
        CDescriptor.defaultCtor g a v ∧
      (CSpeechLib.construct L T g a v).terminate.2.getDescriptor.1 =
        CDescriptor.defaultCtor g a v :=
  ⟨rfl, rfl, rfl⟩
